import Mathlib

/-!
Verification of the Banjo permission hook (`scripts/permission-hook.py`).

The script is a one-shot relay: it reads a permission query from stdin,
forwards it over a Unix socket to the approval authority, waits for a
newline-framed JSON response under a 60-second socket timeout, and maps the
response's `decision` field to an allow/deny/defer outcome on stdout.

The embedding below models the script as a pure function `runMain` from
  - the `BANJO_PERMISSION_SOCKET` environment value,
  - the stdin byte stream (a `String`),
  - an abstract description of what the socket does (`SockOutcome`),
to a `RunResult` recording the stdout documents, the stderr diagnostics, the
exit status, whether the process died from an uncaught exception, the request
that was sent, and a trace of connection-lifecycle events.

JSON parsing (`json.load` / `json.loads`) is embedded as an executable parser
faithful to Python's `json` module on the fragments the script can encounter:
one value per document, trailing non-whitespace is an error ("Extra data"),
objects keep the last binding for a duplicated key (via `jGetD`), the number
lexeme follows Python's NUMBER_RE regex, and the default `parse_constant`
acceptance of `NaN`, `Infinity` and `-Infinity` is kept.  `str.strip()` is
embedded with the full `str.isspace()` character set.
-/

/-- JSON values. Numbers keep their source lexeme (the relay never computes
with them, it only passes them through). -/
inductive Json where
  | null : Json
  | bool : Bool → Json
  | num : String → Json
  | str : String → Json
  | arr : List Json → Json
  | obj : List (String × Json) → Json

/-- JSON insignificant whitespace, as skipped by Python's json decoder. -/
def isJsonWs (c : Char) : Bool :=
  c = ' ' || c = '\t' || c = '\n' || c = '\r'

/-- Drop leading JSON whitespace. -/
def skipWs : List Char → List Char
  | [] => []
  | c :: cs => if isJsonWs c then skipWs cs else c :: cs

/-- Value of a hexadecimal digit. -/
def hexVal (c : Char) : Option Nat :=
  if '0' ≤ c ∧ c ≤ '9' then some (c.toNat - 48)
  else if 'a' ≤ c ∧ c ≤ 'f' then some (c.toNat - 87)
  else if 'A' ≤ c ∧ c ≤ 'F' then some (c.toNat - 55)
  else none

/-- Body of a JSON string literal, after the opening quote.  Returns the
decoded string and the input after the closing quote.  Raw control characters
are rejected (Python's decoder is strict by default). -/
def parseStrBody : List Char → List Char → Option (String × List Char)
  | _, [] => none
  | acc, '"' :: rest => some (String.mk acc.reverse, rest)
  | acc, '\\' :: '"' :: rest => parseStrBody ('"' :: acc) rest
  | acc, '\\' :: '\\' :: rest => parseStrBody ('\\' :: acc) rest
  | acc, '\\' :: '/' :: rest => parseStrBody ('/' :: acc) rest
  | acc, '\\' :: 'b' :: rest => parseStrBody ('\x08' :: acc) rest
  | acc, '\\' :: 'f' :: rest => parseStrBody ('\x0c' :: acc) rest
  | acc, '\\' :: 'n' :: rest => parseStrBody ('\n' :: acc) rest
  | acc, '\\' :: 'r' :: rest => parseStrBody ('\r' :: acc) rest
  | acc, '\\' :: 't' :: rest => parseStrBody ('\t' :: acc) rest
  | acc, '\\' :: 'u' :: a :: b :: c :: d :: rest =>
    match hexVal a, hexVal b, hexVal c, hexVal d with
    | some x, some y, some z, some w =>
      parseStrBody (Char.ofNat (((x * 16 + y) * 16 + z) * 16 + w) :: acc) rest
    | _, _, _, _ => none
  | _, '\\' :: _ :: _ => none
  | acc, c :: rest => if c.toNat < 0x20 then none else parseStrBody (c :: acc) rest

/-- Lex a JSON number following Python's NUMBER_RE: `-?(0|[1-9]\d*)` then an
optional `.\d+` fraction and an optional `[eE][-+]?\d+` exponent, with
maximal-munch on each optional group (a dangling `.` or `e` is left in the
remaining input, exactly as the regex leaves it). -/
def parseNum (cs : List Char) : Option (Json × List Char) :=
  let (sign, cs1) :=
    match cs with
    | '-' :: r => ((['-'] : List Char), r)
    | _ => (([] : List Char), cs)
  match cs1.span Char.isDigit with
  | ([], _) => none
  | (d :: ds, r) =>
    let (ip, cs2) := if d = '0' then (([d] : List Char), ds ++ r) else (d :: ds, r)
    let (fp, cs3) :=
      match cs2 with
      | '.' :: r2 =>
        match r2.span Char.isDigit with
        | ([], _) => (([] : List Char), cs2)
        | (fs, r3) => ('.' :: fs, r3)
      | _ => (([] : List Char), cs2)
    let (ep, cs4) :=
      match cs3 with
      | e :: r2 =>
        if e = 'e' ∨ e = 'E' then
          let (sg, r3) :=
            match r2 with
            | s :: r4 => if s = '+' ∨ s = '-' then (([s] : List Char), r4) else (([] : List Char), r2)
            | _ => (([] : List Char), r2)
          match r3.span Char.isDigit with
          | ([], _) => (([] : List Char), cs3)
          | (es, r4) => (e :: (sg ++ es), r4)
        else (([] : List Char), cs3)
      | _ => (([] : List Char), cs3)
    some (.num (String.mk (sign ++ ip ++ fp ++ ep)), cs4)

mutual

/-- Parse one JSON value (fuel-indexed; `parseJson` supplies enough fuel).
Python's decoder additionally accepts the constants `NaN`, `Infinity` and
`-Infinity` by default (`parse_constant`); they are kept as number lexemes. -/
def parseValue : Nat → List Char → Option (Json × List Char)
  | 0, _ => none
  | Nat.succ fuel, cs =>
    match skipWs cs with
    | 'n' :: 'u' :: 'l' :: 'l' :: rest => some (.null, rest)
    | 't' :: 'r' :: 'u' :: 'e' :: rest => some (.bool true, rest)
    | 'f' :: 'a' :: 'l' :: 's' :: 'e' :: rest => some (.bool false, rest)
    | '"' :: rest =>
      match parseStrBody [] rest with
      | some (s, r) => some (.str s, r)
      | none => none
    | '[' :: rest =>
      match skipWs rest with
      | ']' :: r2 => some (.arr [], r2)
      | _ => parseArrLoop fuel [] rest
    | '\x7b' :: rest =>
      match skipWs rest with
      | '\x7d' :: r2 => some (.obj [], r2)
      | _ => parseObjLoop fuel [] rest
    | 'N' :: 'a' :: 'N' :: rest => some (.num "NaN", rest)
    | 'I' :: 'n' :: 'f' :: 'i' :: 'n' :: 'i' :: 't' :: 'y' :: rest =>
      some (.num "Infinity", rest)
    | '-' :: 'I' :: 'n' :: 'f' :: 'i' :: 'n' :: 'i' :: 't' :: 'y' :: rest =>
      some (.num "-Infinity", rest)
    | rest => parseNum rest

/-- Comma-separated array items after `[` (at least one item). -/
def parseArrLoop : Nat → List Json → List Char → Option (Json × List Char)
  | 0, _, _ => none
  | Nat.succ fuel, acc, cs =>
    match parseValue fuel cs with
    | none => none
    | some (v, rest) =>
      match skipWs rest with
      | ',' :: r2 => parseArrLoop fuel (v :: acc) r2
      | ']' :: r2 => some (.arr (v :: acc).reverse, r2)
      | _ => none

/-- Comma-separated object members after an opening brace (at least one). -/
def parseObjLoop : Nat → List (String × Json) → List Char → Option (Json × List Char)
  | 0, _, _ => none
  | Nat.succ fuel, acc, cs =>
    match skipWs cs with
    | '"' :: r1 =>
      match parseStrBody [] r1 with
      | none => none
      | some (k, r2) =>
        match skipWs r2 with
        | ':' :: r3 =>
          match parseValue fuel r3 with
          | none => none
          | some (v, r4) =>
            match skipWs r4 with
            | ',' :: r5 => parseObjLoop fuel ((k, v) :: acc) r5
            | '\x7d' :: r5 => some (.obj ((k, v) :: acc).reverse, r5)
            | _ => none
        | _ => none
    | _ => none

end

/-- Embedding of `json.loads` on a full document: one value, then only
whitespace may remain (otherwise Python raises "Extra data"). -/
def parseJson (cs : List Char) : Option Json :=
  match parseValue (cs.length + 1) cs with
  | some (v, rest) => if skipWs rest = [] then some v else none
  | none => none

/-- The characters Python's unargumented `str.strip()` removes: exactly those
with `str.isspace()` true — `\t\n\v\f\r`, space, the `\x1c`-`\x1f`
separators, NEL (U+0085), NBSP (U+00A0), Ogham space (U+1680), the U+2000 to
U+200A spaces, line/paragraph separators (U+2028, U+2029), narrow NBSP
(U+202F), medium mathematical space (U+205F) and ideographic space
(U+3000). -/
def isPySpace (c : Char) : Bool :=
  (0x09 ≤ c.toNat && c.toNat ≤ 0x0d) || c.toNat = 0x20 ||
  (0x1c ≤ c.toNat && c.toNat ≤ 0x1f) || c.toNat = 0x85 || c.toNat = 0xa0 ||
  c.toNat = 0x1680 || (0x2000 ≤ c.toNat && c.toNat ≤ 0x200a) ||
  c.toNat = 0x2028 || c.toNat = 0x2029 || c.toNat = 0x202f ||
  c.toNat = 0x205f || c.toNat = 0x3000

/-- Embedding of Python's `str.strip()` on the decoded response bytes. -/
def pyStrip (cs : List Char) : List Char :=
  ((cs.dropWhile isPySpace).reverse.dropWhile isPySpace).reverse

/-- Whether a parsed number lexeme denotes zero: its mantissa holds a digit
and no nonzero digit (sign and exponent do not matter once every mantissa
digit is `0`).  The constant lexemes `NaN`, `Infinity` and `-Infinity` hold
no digit and are nonzero — the corresponding floats are truthy in Python. -/
def numIsZero (raw : String) : Bool :=
  (raw.toList.takeWhile (fun c => c != 'e' && c != 'E')).any
    (fun c => '0' ≤ c && c ≤ '9') &&
  (raw.toList.takeWhile (fun c => c != 'e' && c != 'E')).all
    (fun c => !('1' ≤ c && c ≤ '9'))

/-- Python truthiness of a JSON-derived value, as used by `message or default`. -/
def pyTruthy : Json → Bool
  | .null => false
  | .bool b => b
  | .num raw => !numIsZero raw
  | .str s => s != ""
  | .arr xs => !xs.isEmpty
  | .obj fs => !fs.isEmpty

/-- Embedding of `dict.get(key, default)` on a JSON object's members.  Python
dicts built by `json.loads` keep the last value for a duplicated key, hence
the left fold. -/
def jGetD (fields : List (String × Json)) (key : String) (dflt : Json) : Json :=
  match fields.foldl (fun acc kv => if kv.1 == key then some kv.2 else acc) none with
  | some v => v
  | none => dflt

/-- Embedding of Python's `value == "s"` for a JSON-derived value: true only
when the value is that exact string. -/
def isStr (v : Json) (s : String) : Bool :=
  match v with
  | .str t => t == s
  | _ => false

/-! ## Serialization: `json.dumps` with its default options -/

/-- Lowercase hexadecimal digit. -/
def hexDigit (n : Nat) : Char :=
  if n < 10 then Char.ofNat (48 + n) else Char.ofNat (87 + n)

/-- Four lowercase hexadecimal digits. -/
def hex4 (n : Nat) : List Char :=
  [hexDigit (n / 4096 % 16), hexDigit (n / 256 % 16), hexDigit (n / 16 % 16),
   hexDigit (n % 16)]

/-- Escaping of one character inside a dumped JSON string, following
`json.dumps` with `ensure_ascii=True`: everything outside `0x20`-`0x7e` is
`\uXXXX`-escaped (astral characters as a surrogate pair). -/
def escapeChar (c : Char) : List Char :=
  if c = '"' then ['\\', '"']
  else if c = '\\' then ['\\', '\\']
  else if c = '\n' then ['\\', 'n']
  else if c = '\r' then ['\\', 'r']
  else if c = '\t' then ['\\', 't']
  else if c = '\x08' then ['\\', 'b']
  else if c = '\x0c' then ['\\', 'f']
  else if c.toNat < 0x20 ∨ 0x7e < c.toNat then
    if c.toNat < 0x10000 then '\\' :: 'u' :: hex4 c.toNat
    else
      ('\\' :: 'u' :: hex4 (0xd800 + (c.toNat - 0x10000) / 0x400)) ++
      ('\\' :: 'u' :: hex4 (0xdc00 + (c.toNat - 0x10000) % 0x400))
  else [c]

/-- Dump a string literal with quotes. -/
def dumpsStr (s : String) : String :=
  String.mk ('"' :: (s.toList.map escapeChar).flatten ++ ['"'])

mutual

/-- Embedding of `json.dumps` with default options (separators `", "` and
`": "`, `ensure_ascii=True`). -/
def dumps : Json → String
  | .null => "null"
  | .bool true => "true"
  | .bool false => "false"
  | .num raw => raw
  | .str s => dumpsStr s
  | .arr xs => "[" ++ dumpsArr xs ++ "]"
  | .obj fs => "\x7b" ++ dumpsObj fs ++ "\x7d"

/-- Array elements joined by `", "`. -/
def dumpsArr : List Json → String
  | [] => ""
  | [v] => dumps v
  | v :: vs => dumps v ++ ", " ++ dumpsArr vs

/-- Object members joined by `", "`, keys separated by `": "`. -/
def dumpsObj : List (String × Json) → String
  | [] => ""
  | [(k, v)] => dumpsStr k ++ ": " ++ dumps v
  | (k, v) :: fs => dumpsStr k ++ ": " ++ dumps v ++ ", " ++ dumpsObj fs

end

/-! ## The relay itself (`main` of `permission-hook.py`) -/

/-- The script's socket timeout: `sock.settimeout(60)`. -/
def socketTimeout : Nat := 60

/-- What the peer does once the read loop exhausts the scripted chunks: close
the connection (a zero-byte `recv`), raise `socket.error`, or never send
another byte so that the pending `recv` exceeds its timeout. -/
inductive RecvEnd where
  | closed : RecvEnd
  | errored : RecvEnd
  | timedOut : RecvEnd
deriving DecidableEq

/-- Result of the read loop: an accumulated buffer, or the exception that
interrupted it. -/
inductive RecvResult where
  | ok : List Char → RecvResult
  | timedOut : RecvResult
  | errored : RecvResult
deriving DecidableEq

/-- The script's receive loop.  Each scripted chunk comes with the number of
seconds the blocking `recv` waited for it; `settimeout(60)` makes each
individual `recv` raise `socket.timeout` when its own wait exceeds 60 seconds.
The loop stops on a zero-byte chunk (peer closed) or as soon as the
accumulated buffer contains a newline byte. -/
def doRecv : List (Nat × List Char) → RecvEnd → List Char → RecvResult
  | [], ending, acc =>
    match ending with
    | .closed => .ok acc
    | .errored => .errored
    | .timedOut => .timedOut
  | (t, chunk) :: rest, ending, acc =>
    if socketTimeout < t then .timedOut
    else if chunk = [] then .ok acc
    else if '\n' ∈ acc ++ chunk then .ok (acc ++ chunk)
    else doRecv rest ending (acc ++ chunk)

/-- Modelled from the spec: "Apply a fixed 60-second deadline covering the
entire connect-send-receive-close sequence (not per-call but cumulative)."
The same read loop, but each wait is deducted from one shared budget and the
loop times out as soon as the budget is exceeded.  This definition follows the
spec's words, for comparison with `doRecv`, which follows the source. -/
def cumulativeRecv : Nat → List (Nat × List Char) → RecvEnd → List Char → RecvResult
  | _, [], ending, acc =>
    match ending with
    | .closed => .ok acc
    | .errored => .errored
    | .timedOut => .timedOut
  | budget, (t, chunk) :: rest, ending, acc =>
    if budget < t then .timedOut
    else if chunk = [] then .ok acc
    else if '\n' ∈ acc ++ chunk then .ok (acc ++ chunk)
    else cumulativeRecv (budget - t) rest ending (acc ++ chunk)

/-- Behavior of the socket during one invocation: an exception while
connecting, an exception while sending, or a successful connect+send followed
by the scripted receive behavior. -/
inductive SockOutcome where
  | connectError : SockOutcome
  | connectTimeout : SockOutcome
  | sendError : SockOutcome
  | sendTimeout : SockOutcome
  | recv : List (Nat × List Char) → RecvEnd → SockOutcome

/-- Diagnostics the script prints to stderr (one per `print(..., file=sys.stderr)`
site, plus the interpreter's traceback for an uncaught exception). -/
inductive Diag where
  | invalidInput : Diag
  | emptyResponse : Diag
  | timedOut : Diag
  | socketError : Diag
  | invalidResponse : Diag
deriving DecidableEq

/-- Connection-lifecycle events, in order: stdin fully read, connection
opened, request fully sent, socket closed. -/
inductive Ev where
  | readStdin : Ev
  | connect : Ev
  | send : Ev
  | close : Ev
deriving DecidableEq

/-- Observable result of one invocation. `stdout` is the list of JSON
documents printed to standard output; `exitCode` is the process exit status;
`uncaught` records that the process died from an unhandled exception (the
interpreter prints a traceback and exits 1); `sent` is the request written to
the socket, when the send completed. -/
structure RunResult where
  stdout : List Json
  stderr : List Diag
  exitCode : Nat
  uncaught : Bool
  sent : Option Json
  trace : List Ev

/-- The allow document the script prints. -/
def allowOutput : Json :=
  .obj [("hookSpecificOutput",
    .obj [("hookEventName", .str "PermissionRequest"),
          ("decision", .obj [("behavior", .str "allow")])])]

/-- The deny document the script prints, with the chosen message. -/
def denyOutput (message : Json) : Json :=
  .obj [("hookSpecificOutput",
    .obj [("hookEventName", .str "PermissionRequest"),
          ("decision", .obj [("behavior", .str "deny"), ("message", message)])])]

/-- The request dict built from the caller's input object (lines 34-45 of the
script): each field via `input_data.get(...)` with its default. -/
def buildRequest (input_data : List (String × Json)) : Json :=
  .obj [("tool_name", jGetD input_data "tool_name" (.str "")),
        ("tool_input", jGetD input_data "tool_input" (.obj [])),
        ("tool_use_id", jGetD input_data "tool_use_id" (.str "")),
        ("session_id", jGetD input_data "session_id" (.str ""))]

/-- Trace of a run in which the exchange completed and the socket was closed. -/
def fullTrace : List Ev := [.readStdin, .connect, .send, .close]

/-- Handling of a completely received response buffer (lines 67-100 of the
script).  `sock.close()` has already happened, so every branch's trace is
`fullTrace`.  The empty buffer defers with a diagnostic; otherwise the
stripped buffer is parsed; a parse failure defers with a diagnostic; a parsed
object is mapped through its `decision` field; a parsed non-object makes
`response.get` raise an uncaught `AttributeError`. -/
def handleResponse (request : Json) (response_bytes : List Char) : RunResult :=
  if response_bytes = [] then
    ⟨[], [.emptyResponse], 0, false, some request, fullTrace⟩
  else
    match parseJson (pyStrip response_bytes) with
    | none => ⟨[], [.invalidResponse], 0, false, some request, fullTrace⟩
    | some (.obj response) =>
      if isStr (jGetD response "decision" (.str "ask")) "allow" then
        ⟨[allowOutput], [], 0, false, some request, fullTrace⟩
      else if isStr (jGetD response "decision" (.str "ask")) "deny" then
        ⟨[denyOutput (if pyTruthy (jGetD response "message" (.str ""))
                      then jGetD response "message" (.str "")
                      else .str "Permission denied by user")],
         [], 0, false, some request, fullTrace⟩
      else
        ⟨[], [], 0, false, some request, fullTrace⟩
    | some _ => ⟨[], [], 1, true, some request, fullTrace⟩

/-- The `try` block from `sock = socket.socket(...)` onward, together with the
three `except` handlers. -/
def runConnected (request : Json) (sock : SockOutcome) : RunResult :=
  match sock with
  | .connectError => ⟨[], [.socketError], 0, false, none, [.readStdin]⟩
  | .connectTimeout => ⟨[], [.timedOut], 0, false, none, [.readStdin]⟩
  | .sendError => ⟨[], [.socketError], 0, false, none, [.readStdin, .connect]⟩
  | .sendTimeout => ⟨[], [.timedOut], 0, false, none, [.readStdin, .connect]⟩
  | .recv chunks ending =>
    match doRecv chunks ending [] with
    | .timedOut => ⟨[], [.timedOut], 0, false, some request, [.readStdin, .connect, .send]⟩
    | .errored => ⟨[], [.socketError], 0, false, some request, [.readStdin, .connect, .send]⟩
    | .ok response_bytes => handleResponse request response_bytes

/-- The script's `main` function (named `runMain` here): environment lookup, stdin parse, then the exchange.
An absent or empty `BANJO_PERMISSION_SOCKET` exits immediately (Python's
`if not socket_path`).  A stdin stream that is not JSON prints a diagnostic
and exits 1.  A stdin stream that is JSON but not an object makes
`input_data.get` raise an uncaught `AttributeError`. -/
def runMain (socket_env : Option String) (stdin : String) (sock : SockOutcome) : RunResult :=
  let socket_path := socket_env.getD ""
  if socket_path = "" then ⟨[], [], 0, false, none, []⟩
  else
    match parseJson stdin.toList with
    | none => ⟨[], [.invalidInput], 1, false, none, [.readStdin]⟩
    | some (.obj input_data) => runConnected (buildRequest input_data) sock
    | some _ => ⟨[], [], 1, true, none, [.readStdin]⟩

/-! ## General lemmas about the model -/

/-- Whatever the received buffer holds, `sock.close()` has run before the
response is inspected, so the trace of every `handleResponse` branch contains
the close event. -/
lemma handleResponse_trace (r : Json) (b : List Char) :
    (handleResponse r b).trace = fullTrace := by
  unfold handleResponse
  repeat' split <;> try rfl

/-- Once the scripted chunks `tcs1` are guaranteed to break the read loop —
their concatenation contains a newline, or one of them is the zero-byte
close, or one of them arrives after its `recv` already timed out — chunks
scripted after them are never read, whatever the peer would have done next. -/
lemma doRecv_stop (tcs2 : List (Nat × List Char)) (e e' : RecvEnd) :
    ∀ (tcs1 : List (Nat × List Char)) (acc : List Char), '\n' ∉ acc →
    ('\n' ∈ (tcs1.map Prod.snd).flatten ∨ ∃ tc ∈ tcs1, tc.2 = [] ∨ socketTimeout < tc.1) →
    doRecv (tcs1 ++ tcs2) e acc = doRecv tcs1 e' acc := by
  intro tcs1
  induction tcs1 with
  | nil =>
    intro acc hacc hbr
    simp at hbr
  | cons hd rest ih =>
    intro acc hacc hbr
    obtain ⟨t, c⟩ := hd
    by_cases h1 : socketTimeout < t
    · simp only [List.cons_append, doRecv, if_pos h1]
    · by_cases h2 : c = []
      · simp only [List.cons_append, doRecv, if_neg h1, if_pos h2]
      · by_cases h3 : '\n' ∈ acc ++ c
        · simp only [List.cons_append, doRecv, if_neg h1, if_neg h2, if_pos h3]
        · have hbr' : '\n' ∈ (rest.map Prod.snd).flatten ∨
              ∃ tc ∈ rest, tc.2 = [] ∨ socketTimeout < tc.1 := by
            rcases hbr with hm | ⟨tc, htc, hcase⟩
            · left
              simp only [List.map_cons, List.flatten_cons, List.mem_append] at hm
              rcases hm with hm | hm
              · exact absurd (List.mem_append.mpr (Or.inr hm)) h3
              · exact hm
            · rcases List.mem_cons.mp htc with heq | hmem
              · subst heq
                rcases hcase with hc | hc
                · exact absurd hc h2
                · exact absurd hc h1
              · exact Or.inr ⟨tc, hmem, hcase⟩
          simp only [List.cons_append, doRecv, if_neg h1, if_neg h2, if_neg h3]
          exact ih (acc ++ c) h3 hbr'

/-! ## Claim theorems -/

/-- Claim C1: for every received response that parses as a JSON object whose
`decision` field equals `"allow"`, the program writes to standard output
exactly the single allow document — whose `json.dumps` rendering is the
literal text of the spec — emits no diagnostic, and exits with status 0. -/
theorem c1_allow_exact_output (p stdin : String) (input_data : List (String × Json))
    (chunks : List (Nat × List Char)) (ending : RecvEnd) (buf : List Char)
    (response : List (String × Json))
    (hp : p ≠ "")
    (hin : parseJson stdin.toList = some (.obj input_data))
    (hrecv : doRecv chunks ending [] = .ok buf)
    (hresp : parseJson (pyStrip buf) = some (.obj response))
    (hdec : jGetD response "decision" (.str "ask") = .str "allow") :
    runMain (some p) stdin (.recv chunks ending) =
      ⟨[allowOutput], [], 0, false, some (buildRequest input_data), fullTrace⟩ ∧
    dumps allowOutput =
      "\x7b\"hookSpecificOutput\": \x7b\"hookEventName\": \"PermissionRequest\", \"decision\": \x7b\"behavior\": \"allow\"\x7d\x7d\x7d" := by
  refine ⟨?_, rfl⟩
  have hbne : buf ≠ [] := by
    intro h
    rw [h, show parseJson (pyStrip []) = none from rfl] at hresp
    exact Option.noConfusion hresp
  simp only [runMain, Option.getD]
  rw [if_neg hp, hin]
  simp only [runConnected]
  rw [hrecv]
  simp only [handleResponse]
  rw [if_neg hbne, hresp]
  simp [hdec, isStr]

/-- Witness for C1: endpoint `/s`, stdin `\x7b\x7d`, authority answers the
allow line. -/
theorem c1_allow_exact_output_witness :
    runMain (some "/s") "\x7b\x7d"
        (.recv [(1, ("\x7b\"decision\": \"allow\"\x7d\n").toList)] .closed) =
      ⟨[allowOutput], [], 0, false, some (buildRequest []), fullTrace⟩ ∧
    dumps allowOutput =
      "\x7b\"hookSpecificOutput\": \x7b\"hookEventName\": \"PermissionRequest\", \"decision\": \x7b\"behavior\": \"allow\"\x7d\x7d\x7d" :=
  c1_allow_exact_output "/s" "\x7b\x7d" []
    [(1, ("\x7b\"decision\": \"allow\"\x7d\n").toList)] .closed
    (("\x7b\"decision\": \"allow\"\x7d\n").toList) [("decision", .str "allow")]
    (by decide) rfl rfl rfl rfl

/-- Claim C2: for every received response object whose `decision` equals
`"deny"`, the program writes the deny document whose nested `message` field
is the response's message verbatim when that message is a non-empty string,
and the fixed default `"Permission denied by user"` when the message is empty
or absent (`response.get("message", "")` makes an absent message the empty
string); exit status 0. -/
theorem c2_deny_message (p stdin : String) (input_data : List (String × Json))
    (chunks : List (Nat × List Char)) (ending : RecvEnd) (buf : List Char)
    (response : List (String × Json)) (m : String)
    (hp : p ≠ "")
    (hin : parseJson stdin.toList = some (.obj input_data))
    (hrecv : doRecv chunks ending [] = .ok buf)
    (hresp : parseJson (pyStrip buf) = some (.obj response))
    (hdec : jGetD response "decision" (.str "ask") = .str "deny")
    (hmsg : jGetD response "message" (.str "") = .str m) :
    runMain (some p) stdin (.recv chunks ending) =
      ⟨[denyOutput (.str (if m = "" then "Permission denied by user" else m))],
       [], 0, false, some (buildRequest input_data), fullTrace⟩ := by
  have hbne : buf ≠ [] := by
    intro h
    rw [h, show parseJson (pyStrip []) = none from rfl] at hresp
    exact Option.noConfusion hresp
  simp only [runMain, Option.getD]
  rw [if_neg hp, hin]
  simp only [runConnected]
  rw [hrecv]
  simp only [handleResponse]
  rw [if_neg hbne, hresp]
  simp [hdec, hmsg, isStr, pyTruthy]
  by_cases hm : m = "" <;> simp [hm]

/-- Witness for C2: a deny with message `"no"` keeps it verbatim; a deny with
no message field gets the fixed default. -/
theorem c2_deny_message_witness :
    runMain (some "/s") "\x7b\x7d"
        (.recv [(1, ("\x7b\"decision\": \"deny\", \"message\": \"no\"\x7d\n").toList)] .closed) =
      ⟨[denyOutput (.str "no")], [], 0, false, some (buildRequest []), fullTrace⟩ ∧
    runMain (some "/s") "\x7b\x7d"
        (.recv [(1, ("\x7b\"decision\": \"deny\"\x7d\n").toList)] .closed) =
      ⟨[denyOutput (.str "Permission denied by user")], [], 0, false,
       some (buildRequest []), fullTrace⟩ :=
  ⟨c2_deny_message "/s" "\x7b\x7d" [] _ .closed
      (("\x7b\"decision\": \"deny\", \"message\": \"no\"\x7d\n").toList)
      [("decision", .str "deny"), ("message", .str "no")] "no"
      (by decide) rfl rfl rfl rfl rfl,
   c2_deny_message "/s" "\x7b\x7d" [] _ .closed
      (("\x7b\"decision\": \"deny\"\x7d\n").toList)
      [("decision", .str "deny")] ""
      (by decide) rfl rfl rfl rfl rfl⟩

/-- Claim C3: for every received response object whose `decision` value is
anything but the strings `"allow"` and `"deny"` — absent (it defaults to
`"ask"`), empty, `"ask"`, any other string, or not a string at all — the
program writes nothing to standard output and exits with status 0. -/
theorem c3_unrecognized_defers (p stdin : String) (input_data : List (String × Json))
    (chunks : List (Nat × List Char)) (ending : RecvEnd) (buf : List Char)
    (response : List (String × Json))
    (hp : p ≠ "")
    (hin : parseJson stdin.toList = some (.obj input_data))
    (hrecv : doRecv chunks ending [] = .ok buf)
    (hresp : parseJson (pyStrip buf) = some (.obj response))
    (hda : isStr (jGetD response "decision" (.str "ask")) "allow" = false)
    (hdd : isStr (jGetD response "decision" (.str "ask")) "deny" = false) :
    runMain (some p) stdin (.recv chunks ending) =
      ⟨[], [], 0, false, some (buildRequest input_data), fullTrace⟩ := by
  have hbne : buf ≠ [] := by
    intro h
    rw [h, show parseJson (pyStrip []) = none from rfl] at hresp
    exact Option.noConfusion hresp
  simp only [runMain, Option.getD]
  rw [if_neg hp, hin]
  simp only [runConnected]
  rw [hrecv]
  simp only [handleResponse]
  rw [if_neg hbne, hresp]
  simp [hda, hdd]

/-- Witness for C3: a response object with no `decision` field at all takes
the defer branch. -/
theorem c3_unrecognized_defers_witness :
    runMain (some "/s") "\x7b\x7d"
        (.recv [(1, ("\x7b\"foo\": 1\x7d\n").toList)] .closed) =
      ⟨[], [], 0, false, some (buildRequest []), fullTrace⟩ :=
  c3_unrecognized_defers "/s" "\x7b\x7d" [] _ .closed
    (("\x7b\"foo\": 1\x7d\n").toList) [("foo", .num "1")]
    (by decide) rfl rfl rfl rfl rfl

/-- Claim C4: with the endpoint environment variable absent the program
terminates at once with status 0, writes nothing to standard output, and
performs no further processing: the event trace is empty, so stdin is never
read and no connection is attempted, whatever stdin holds and whatever the
socket would have done. -/
theorem c4_missing_endpoint_defers (stdin : String) (sock : SockOutcome) :
    runMain none stdin sock = ⟨[], [], 0, false, none, []⟩ := rfl

/-- Claim C10: an endpoint variable set to the empty string behaves exactly
as an absent one (`if not socket_path` is true for both). -/
theorem c10_empty_env_like_absent (stdin : String) (sock : SockOutcome) :
    runMain (some "") stdin sock = runMain none stdin sock := rfl

/-- Claim C5 (code bug): `"42"` is well-formed JSON, so the stated
fatal path is not taken; yet with a configured endpoint the exchange that
receives the well-formed response `42\n` ends with an uncaught
`AttributeError` (`response.get` on an `int`) and the interpreter exits with
status 1 — so malformed caller input is not the only execution path with a
non-zero exit status.  The same happens when stdin itself is well-formed
non-object JSON (`input_data.get` on an `int`). -/
theorem c5_wellformed_nonobject_crashes :
    parseJson (pyStrip (("42\n").toList)) = some (.num "42") ∧
    runMain (some "/s") "\x7b\x7d" (.recv [(1, ("42\n").toList)] .closed) =
      ⟨[], [], 1, true, some (buildRequest []), fullTrace⟩ ∧
    parseJson (("42" : String).toList) = some (.num "42") ∧
    runMain (some "/s") "42" (.recv [] .closed) =
      ⟨[], [], 1, true, none, [.readStdin]⟩ := ⟨rfl, rfl, rfl, rfl⟩

/-- Counterexample to C7: `sock.settimeout(60)` is a per-operation allowance,
not one cumulative budget.  Two receives of 40 seconds each (80 seconds in
total) complete under the source semantics (`doRecv`), while the cumulative
deadline the spec describes (`cumulativeRecv`) expires — the two semantics
disagree at this input. -/
theorem c7_cx_timeout_not_cumulative :
    doRecv [(40, ['a']), (40, ['b', '\n'])] .closed [] = .ok ['a', 'b', '\n'] ∧
    cumulativeRecv socketTimeout [(40, ['a']), (40, ['b', '\n'])] .closed [] = .timedOut ∧
    doRecv [(40, ['a']), (40, ['b', '\n'])] .closed [] ≠
      cumulativeRecv socketTimeout [(40, ['a']), (40, ['b', '\n'])] .closed [] :=
  ⟨rfl, rfl, by decide⟩

/-- Claim C7 as amended: the 60-second allowance applies to each socket
operation individually, so the whole exchange may outlast 60 seconds; any
single receive whose own wait exceeds 60 seconds raises `socket.timeout`,
which deterministically routes to the defer outcome — empty stdout, exit
status 0, one diagnostic. -/
theorem c7_per_operation_timeout (t : Nat) (c : List Char)
    (rest : List (Nat × List Char)) (ending : RecvEnd)
    (p stdin : String) (input_data : List (String × Json))
    (tcs : List (Nat × List Char)) (e2 : RecvEnd)
    (ht : socketTimeout < t)
    (hp : p ≠ "")
    (hin : parseJson stdin.toList = some (.obj input_data))
    (h2 : doRecv tcs e2 [] = .timedOut) :
    doRecv ((t, c) :: rest) ending [] = .timedOut ∧
    runMain (some p) stdin (.recv tcs e2) =
      ⟨[], [.timedOut], 0, false, some (buildRequest input_data),
       [.readStdin, .connect, .send]⟩ := by
  constructor
  · simp only [doRecv]
    rw [if_pos ht]
  · simp only [runMain, Option.getD]
    rw [if_neg hp, hin]
    simp only [runConnected]
    rw [h2]

/-- Witness for the amended C7: a 61-second first receive times out and the
run defers with exit 0 and a diagnostic. -/
theorem c7_per_operation_timeout_witness :
    doRecv [(61, ['x'])] .closed [] = .timedOut ∧
    runMain (some "/s") "\x7b\x7d" (.recv [(61, ['x'])] .closed) =
      ⟨[], [.timedOut], 0, false, some (buildRequest []),
       [.readStdin, .connect, .send]⟩ :=
  c7_per_operation_timeout 61 ['x'] [] .closed "/s" "\x7b\x7d" []
    [(61, ['x'])] .closed (by decide) (by decide) rfl rfl

/-- Counterexample to C8: bytes buffered after the first newline DO affect
the decision mapping.  The chunk `...allow...\n` alone yields the allow
document, but the chunk `...allow...\nx` — same first line — makes
`json.loads` fail on the whole buffer ("Extra data") and the run defers with
a diagnostic instead. -/
theorem c8_cx_trailing_bytes_change_outcome :
    (runMain (some "/s") "\x7b\x7d"
        (.recv [(1, ("\x7b\"decision\": \"allow\"\x7d\n").toList)] .closed)).stdout =
      [allowOutput] ∧
    (runMain (some "/s") "\x7b\x7d"
        (.recv [(1, ("\x7b\"decision\": \"allow\"\x7d\nx").toList)] .closed)).stdout = [] ∧
    (runMain (some "/s") "\x7b\x7d"
        (.recv [(1, ("\x7b\"decision\": \"allow\"\x7d\nx").toList)] .closed)).stderr =
      [.invalidResponse] := ⟨rfl, rfl, rfl⟩

/-- Claim C8 as amended: the read loop stops at the first newline in the
accumulated buffer (or at peer close / a failing operation) — chunks scripted
after the break are never read — and the outcome is then a function of the
entire accumulated buffer: two exchanges that accumulate the same buffer
produce identical runs, but the whole (whitespace-stripped) buffer is parsed,
so non-whitespace bytes after the first newline within the buffer change the
outcome, as the counterexample shows. -/
theorem c8_read_stops_outcome_from_buffer (tcs1 tcs2 : List (Nat × List Char))
    (e e' : RecvEnd) (acc : List Char)
    (tcsA tcsB : List (Nat × List Char)) (eA eB : RecvEnd) (buf : List Char)
    (p stdin : String)
    (hacc : '\n' ∉ acc)
    (hbr : '\n' ∈ (tcs1.map Prod.snd).flatten ∨
      ∃ tc ∈ tcs1, tc.2 = [] ∨ socketTimeout < tc.1)
    (hA : doRecv tcsA eA [] = .ok buf)
    (hB : doRecv tcsB eB [] = .ok buf) :
    doRecv (tcs1 ++ tcs2) e acc = doRecv tcs1 e' acc ∧
    runMain (some p) stdin (.recv tcsA eA) = runMain (some p) stdin (.recv tcsB eB) := by
  constructor
  · exact doRecv_stop tcs2 e e' tcs1 acc hacc hbr
  · by_cases hp : p = ""
    · subst hp
      rfl
    · simp only [runMain, Option.getD]
      simp only [if_neg hp]
      cases hj : parseJson stdin.toList with
      | none => rfl
      | some v =>
        cases v with
        | obj input_data =>
          simp only [runConnected]
          rw [hA, hB]
        | null => rfl
        | bool b => rfl
        | num s => rfl
        | str s => rfl
        | arr xs => rfl

/-- Witness for the amended C8: a newline-carrying first chunk makes a later
chunk unread whatever the peer would do next, and two differently timed
exchanges accumulating the same buffer coincide. -/
theorem c8_read_stops_outcome_from_buffer_witness :
    doRecv ([(1, ['\n'])] ++ [(1, ['z'])]) .closed [] = doRecv [(1, ['\n'])] .errored [] ∧
    runMain (some "/s") "\x7b\x7d" (.recv [(1, ['a', '\n'])] .closed) =
      runMain (some "/s") "\x7b\x7d" (.recv [(2, ['a', '\n'])] .errored) :=
  c8_read_stops_outcome_from_buffer [(1, ['\n'])] [(1, ['z'])] .closed .errored []
    [(1, ['a', '\n'])] [(2, ['a', '\n'])] .closed .errored ['a', '\n'] "/s" "\x7b\x7d"
    (by decide) (by decide) rfl rfl

/-- Counterexample to C9: on the receive-timeout path the connection was
opened (`connect` is in the trace) but the process exits without ever calling
`sock.close()` — no `close` event precedes termination, because the
`except socket.timeout` handler calls `sys.exit(0)` directly and the script
has no `finally` block. -/
theorem c9_cx_timeout_leaves_socket_open :
    Ev.connect ∈ (runMain (some "/s") "\x7b\x7d" (.recv [(61, ['x'])] .closed)).trace ∧
    Ev.close ∉ (runMain (some "/s") "\x7b\x7d" (.recv [(61, ['x'])] .closed)).trace := by
  decide

/-- Claim C9 as amended: `sock.close()` runs exactly on the paths where the
read loop completes — every such run's trace contains the close event,
whatever the response holds — while on a timeout or socket error after the
connection is opened (during send or receive) the process exits with the
socket never explicitly closed; it is reclaimed only by process
termination. -/
theorem c9_close_only_after_completed_read (p stdin : String)
    (input_data : List (String × Json))
    (tcs tcsT : List (Nat × List Char)) (e eT : RecvEnd) (buf : List Char)
    (hp : p ≠ "")
    (hin : parseJson stdin.toList = some (.obj input_data))
    (hok : doRecv tcs e [] = .ok buf)
    (hT : doRecv tcsT eT [] = .timedOut) :
    Ev.close ∈ (runMain (some p) stdin (.recv tcs e)).trace ∧
    Ev.close ∉ (runMain (some p) stdin (.recv tcsT eT)).trace ∧
    Ev.connect ∈ (runMain (some p) stdin (.recv tcsT eT)).trace ∧
    Ev.close ∉ (runMain (some p) stdin .sendTimeout).trace ∧
    Ev.close ∉ (runMain (some p) stdin .sendError).trace := by
  refine ⟨?_, ?_, ?_, ?_, ?_⟩
  · simp only [runMain, Option.getD]
    rw [if_neg hp, hin]
    simp only [runConnected]
    rw [hok, handleResponse_trace]
    decide
  · simp only [runMain, Option.getD]
    rw [if_neg hp, hin]
    simp only [runConnected]
    rw [hT]
    simp
  · simp only [runMain, Option.getD]
    rw [if_neg hp, hin]
    simp only [runConnected]
    rw [hT]
    simp
  · simp only [runMain, Option.getD]
    rw [if_neg hp, hin]
    simp only [runConnected]
    simp
  · simp only [runMain, Option.getD]
    rw [if_neg hp, hin]
    simp only [runConnected]
    simp

/-- Witness for the amended C9: an allow exchange closes the socket, a
61-second receive leaves it open. -/
theorem c9_close_only_after_completed_read_witness :
    Ev.close ∈ (runMain (some "/s") "\x7b\x7d"
      (.recv [(1, ("\x7b\"decision\": \"allow\"\x7d\n").toList)] .closed)).trace ∧
    Ev.close ∉ (runMain (some "/s") "\x7b\x7d" (.recv [(61, ['x'])] .closed)).trace ∧
    Ev.connect ∈ (runMain (some "/s") "\x7b\x7d" (.recv [(61, ['x'])] .closed)).trace ∧
    Ev.close ∉ (runMain (some "/s") "\x7b\x7d" SockOutcome.sendTimeout).trace ∧
    Ev.close ∉ (runMain (some "/s") "\x7b\x7d" SockOutcome.sendError).trace :=
  c9_close_only_after_completed_read "/s" "\x7b\x7d" []
    [(1, ("\x7b\"decision\": \"allow\"\x7d\n").toList)] [(61, ['x'])] .closed .closed
    (("\x7b\"decision\": \"allow\"\x7d\n").toList)
    (by decide) rfl rfl rfl
